import Mathlib

/-!
Shallow embedding of the SMuFF Klipper host-side driver
(`klipper/klippy/extras/smuff.py`, class `SMuFF`).

The mutable instance attributes of the `SMuFF` class are modelled as the
record `SMuFFState`; every method that the verified claims touch is
translated into a pure function `SMuFFState → ... → SMuFFState × Eff`,
where `Eff` records the externally visible effects (serial writes,
operator responses, GCode macro invocations).  External collaborators
(the Klipper printer object, the `json` library, wall-clock time, the
serial port) are passed in as the record `Ext`.

Python `None` becomes `Option.none`; Python exceptions of library calls
(`json.loads`, `int(...)`) become `Option`-valued results; `time` in
milliseconds is `Int` and float durations are `ℚ`.
-/

set_option maxRecDepth 20000

namespace SMuFFMod

/-- JSON values as returned by Python `json.loads` (an external library
call): objects keep their key order, numbers are restricted to the
integers that appear in the device payloads. -/
inductive JVal where
  | str (s : String)
  | num (n : Int)
  | bool (b : Bool)
  | null
  | arr (elems : List JVal)
  | obj (fields : List (String × JVal))

/-- Python `cfg[k]` on a dict: `none` models the `KeyError`. -/
def JVal.lookup : JVal → String → Option JVal
  | .obj fields, k => fields.lookup k
  | _, _ => none

def JVal.asStr : JVal → Option String
  | .str s => some s
  | _ => none

def JVal.asInt : JVal → Option Int
  | .num n => some n
  | _ => none

def JVal.asBool : JVal → Option Bool
  | .bool b => some b
  | _ => none

/-! ### String helpers (Python `str` methods used by the module) -/

/-- Python `s.startswith(pre)`. -/
def startswith (s pre : String) : Bool :=
  pre.data.isPrefixOf s.data

/-- Python `s[n:]`. -/
def strDrop (s : String) (n : Nat) : String :=
  ⟨s.data.drop n⟩

/-- Python `s.rstrip(cs)` for a one-character set. -/
def rstripChar (s : String) (c : Char) : String :=
  ⟨(s.data.reverse.dropWhile (· == c)).reverse⟩

/-- Python `s.rstrip(set)` for an arbitrary character set. -/
def rstripSet (s : String) (p : Char → Bool) : String :=
  ⟨(s.data.reverse.dropWhile p).reverse⟩

/-- Python `s.lstrip(set)`. -/
def lstripSet (s : String) (p : Char → Bool) : String :=
  ⟨s.data.dropWhile p⟩

/-- Python `s.rstrip()` (trailing whitespace). -/
def rstripWs (s : String) : String :=
  rstripSet s Char.isWhitespace

/-- Python `s.strip()` (both ends, whitespace). -/
def stripWs (s : String) : String :=
  lstripSet (rstripWs s) Char.isWhitespace

/-- Python `s.lower()` (ASCII inputs only). -/
def toLowerStr (s : String) : String :=
  ⟨s.data.map Char.toLower⟩

/-- Python `data.split(" ", 1)[0]`. -/
def firstWord (s : String) : String :=
  ⟨s.data.takeWhile (· ≠ ' ')⟩

def digitsToNat (cs : List Char) : Nat :=
  cs.foldl (fun acc c => acc * 10 + (c.toNat - '0'.toNat)) 0

/-- Python `int(s)` on the digit/sign strings this module feeds it;
`none` models the `ValueError`. -/
def pyInt (s : String) : Option Int :=
  match s.data with
  | [] => none
  | '-' :: rest =>
      if rest ≠ [] ∧ rest.all Char.isDigit then some (-(digitsToNat rest : Int)) else none
  | '+' :: rest =>
      if rest ≠ [] ∧ rest.all Char.isDigit then some (digitsToNat rest : Int) else none
  | l =>
      if l.all Char.isDigit then some (digitsToNat l : Int) else none

/-- First maximal run of characters satisfying `p`
(= `re.findall(cls+, s)[0]`, `none` when there is no match). -/
def firstRun (p : Char → Bool) : List Char → Option (List Char)
  | [] => none
  | c :: rest => if p c then some (c :: rest.takeWhile p) else firstRun p rest

/-! ### Constants of the module (`smuff.py` top level) -/

def WD_TIMEOUT : ℚ := 10                  -- serial watchdog default timeout

def FWINFO : String := "M115"
def PERSTATE : String := "M155"
def OPT_ON : String := " S1"
def TOOL : String := "T"
def HOME : String := "G28"
def LOAD : String := "M700"
def UNLOAD : String := "M701"
def AUTOLOAD : String := " S1"
def ANY : String := "ANY"

/-- `GETCONFIG = "M503 S{0}W"` applied to its argument. -/
def GETCONFIG (n : Nat) : String := "M503 S" ++ toString n ++ "W"

def R_START : String := "start\n"
def R_OK : String := "ok\n"
def R_ECHO : String := "echo:"
def R_DEBUG : String := "dbg:"
def R_ERROR : String := "error:"
def R_BUSY : String := "busy"
def R_STATES : String := "states:"
def R_UNKNOWNCMD : String := "Unknown command:"
def R_JSON : String := "\x7b"
def R_JSONCAT : String := "/*"
def R_FWINFO : String := "FIRMWARE_"

def C_BASIC : String := "basic"
def C_STEPPERS : String := "steppers"
def C_TMC : String := "tmc driver"
def C_MATERIALS : String := "materials"
def C_SWAPS : String := "tool swaps"
def C_SERVOMAPS : String := "servo mapping"
def C_FEEDSTATE : String := "feed state"

def CFG_BASIC : Nat := 1
def CFG_SERVOMAPS : Nat := 4
def CFG_MATERIALS : Nat := 5
def CFG_SWAPS : Nat := 6
def CFG_FEEDSTATE : Nat := 8

def ACTION_CMD : String := "//action:"
def ACTION_WAIT : String := "WAIT"
def ACTION_CONTINUE : String := "CONTINUE"
def ACTION_ABORT : String := "ABORT"
def ACTION_PONG : String := "PONG"

/-! ### Effects and collaborators -/

/-- The operator console messages produced via `gcode.respond_info`;
formatting of the texts is presentation and is abstracted into tagged
constructors carrying the formatted-in values. -/
inductive Msg where
  | notConn
  | alreadyConn
  | notReady                         -- T_NOT_READY ("Busy with other async task, aborting!")
  | skipTool (t : Int)               -- T_SKIP_TOOL
  | noSelTool (t count : Int)        -- T_NO_SEL_TOOL
  | noParam (p : String)             -- T_NO_PARAM
  | busyEcho (line : String)         -- "SMuFF has sent a busy response: [...]"
  | errorEcho (line : String)        -- "SMuFF has sent an error response: [...]"
  | fwInfoMsg (s : String)           -- T_FW_INFO
deriving Repr, DecidableEq

/-- Externally visible effects of one call. -/
structure Eff where
  sends : List String := []          -- bytes written to the serial port
  responds : List Msg := []          -- gcode.respond_info calls
  macros : List String := []         -- gcode.run_script_from_command calls
  toolChangeCalls : List String := []  -- printer.change_tool calls
  flushedBuffers : Bool := false     -- serial reset_output/input_buffer
deriving Repr, DecidableEq

/-- External collaborators and configuration, supplied per call:
the serial transport, Klipper print state, the GCode macros, wall-clock
time, the `json` library and the firmware-info regular expression. -/
structure Ext where
  serialOpen : Bool := true          -- self._serial and self._serial.is_open
  sendFails : Bool := false          -- serial.write raises
  isPrinting : Bool := false         -- idle_timeout.state == "Printing"
  isPaused : Bool := false           -- pause_resume.is_paused
  preMacroError : Bool := false      -- PRE_TOOLCHANGE raises gcode.error
  canExtrude : Option Bool := none   -- heater query; none = exception
  now : Int := 0                     -- _nowMS()
  jsonParse : String → Option JVal := fun _ => none  -- json.loads; none = exception
  fwMatch : String → Option (String × String × String × String) := fun _ => none
  tcTimeout : ℚ := 90                -- config toolchangeTimeout
  cmdTimeout : ℚ := 20               -- config commandTimeout

/-! ### The device state model (`SMuFF` instance attributes) -/

structure SMuFFState where
  fwInfo : String
  curTool : String
  preTool : String
  pendingTool : Int
  activeTool : Int                   -- attribute first created in cmd_tool_change
  selector : Bool
  revolver : Bool
  feeder : Bool
  feeder2 : Bool
  isBusy : Bool
  isError : Bool
  response : Option String
  waitRequested : Bool
  abortRequested : Bool
  lastSerialEvent : Int
  isProcessing : Bool
  isConnected : Bool
  autoLoad : Bool
  serEvent : Bool                    -- threading.Event for command responses
  serWdEvent : Bool                  -- threading.Event for the serial watchdog
  sdcard : Bool
  cfgChange : Bool
  lid : Bool
  isIdle : Bool
  usesTmc : Bool
  tmcWarning : Bool
  lastResponse : List String
  device : String
  jsonCat : Option String
  materials : List (List JVal)
  swaps : List JVal
  servoMaps : List JVal
  feedStates : List JVal
  stCount : Nat
  tcCount : Nat
  tcStartTime : Int
  durationTotal : ℚ
  okTimer : Bool                     -- reactor timer registered for _wait_for_ok
  tcTimer : Bool                     -- reactor timer registered for _tool_change
  tcState : Nat
  initState : Nat
  lastCmdSent : Option String
  lastCmdDone : Bool
  loadState : Int
  spl : Int
  isDDE : Bool
  hasSplitter : Bool
  hasCutter : Bool
  toolCount : Int
  wdTimeout : ℚ
  fwVersion : Option String
  fwBoard : Option String
  fwMode : Option String
  fwOptions : Option String

/-- The state produced by `_reset` (with the `__init__` follow-ups:
`_wdTimeout = WD_TIMEOUT * 2`, `_toolCount = 0`). -/
def reset_state : SMuFFState where
  fwInfo := "?"
  curTool := "T-1"
  preTool := "T-1"
  pendingTool := -1
  activeTool := -1
  selector := false
  revolver := false
  feeder := false
  feeder2 := false
  isBusy := false
  isError := false
  response := none
  waitRequested := false
  abortRequested := false
  lastSerialEvent := 0
  isProcessing := false
  isConnected := false
  autoLoad := true
  serEvent := false
  serWdEvent := false
  sdcard := false
  cfgChange := false
  lid := false
  isIdle := false
  usesTmc := false
  tmcWarning := false
  lastResponse := []
  device := ""
  jsonCat := none
  materials := []
  swaps := []
  servoMaps := []
  feedStates := []
  stCount := 0
  tcCount := 0
  tcStartTime := 0
  durationTotal := 0
  okTimer := false
  tcTimer := false
  tcState := 0
  initState := 0
  lastCmdSent := none
  lastCmdDone := false
  loadState := 0
  spl := 0
  isDDE := false
  hasSplitter := false
  hasCutter := true
  toolCount := 0
  wdTimeout := WD_TIMEOUT * 2
  fwVersion := none
  fwBoard := none
  fwMode := none
  fwOptions := none

/-- A default collaborator record for concrete witnesses. -/
def ext0 : Ext := {}

/-! ### `_parse_tool_number` -/

/-- `_parse_tool_number(tool)`: `int(re.findall(r'[-\d]+', tool)[0])`,
with every exception path yielding -1. -/
def parse_tool_number (tool : String) : Int :=
  if tool = "" then -1
  else
    match firstRun (fun c => c == '-' || c.isDigit) tool.data with
    | none => -1
    | some run =>
      match pyInt ⟨run⟩ with
      | some n => n
      | none => -1

/-! ### `_send_SMuFF` -/

/-- `_send_SMuFF(data)`: clears the busy/error flags, fills in
`_lastCmdSent` from the first token when it is unset, and writes
`data + "\n"` to the serial port; returns whether the write succeeded. -/
def send_SMuFF (ext : Ext) (st : SMuFFState) (data : String) : SMuFFState × Eff × Bool :=
  let st := { st with isBusy := false, isError := false }
  let st :=
    match st.lastCmdSent with
    | none => { st with lastCmdSent := some (firstWord data) }
    | some _ => st
  if ext.serialOpen then
    if ext.sendFails then (st, {}, false)
    else (st, { sends := [data ++ "\n"] }, true)
  else (st, {}, false)

/-! ### The states-line scanner

`_parse_states` runs
`re.findall(r'([A-Z]{1,3}[\d|:]+).(\+?\w+|-?\d+|\-\w+)+', states)`.
The scanner below implements that pattern directly: group 1 is one to
three capital letters followed by a nonempty run over `[\d|:]`
(backtracking over the run length), `.` is any character but a newline,
and group 2 is the last repetition of the greedy alternation
`\+?\w+ | -?\d+ | \-\w+`. -/

def isUpperAZ (c : Char) : Bool := 'A' ≤ c && c ≤ 'Z'

def isDigitPipeColon (c : Char) : Bool := c.isDigit || c == '|' || c == ':'

/-- Python `\w` on the ASCII payloads of this device. -/
def isWordChar (c : Char) : Bool := c.isAlphanum || c == '_'

/-- One repetition of `(\+?\w+|-?\d+|\-\w+)`, alternatives in order. -/
def matchValueToken : List Char → Option (List Char × List Char)
  | [] => none
  | c :: cs =>
    if c == '+' then
      match cs with
      | d :: _ =>
        if isWordChar d then
          let run := cs.takeWhile isWordChar
          some ('+' :: run, cs.drop run.length)
        else none
      | [] => none
    else if isWordChar c then
      let run := (c :: cs).takeWhile isWordChar
      some (run, (c :: cs).drop run.length)
    else if c == '-' then
      match cs with
      | d :: _ =>
        if d.isDigit then
          let run := cs.takeWhile Char.isDigit
          some ('-' :: run, cs.drop run.length)
        else if isWordChar d then
          let run := cs.takeWhile isWordChar
          some ('-' :: run, cs.drop run.length)
        else none
      | [] => none
    else none

/-- Greedy `(...)+` on the value alternation; the capture is the last
repetition, as in Python. -/
def matchValuePlus (fuel : Nat) (cs : List Char) : Option (List Char × List Char) :=
  match fuel, matchValueToken cs with
  | _, none => none
  | 0, some (tok, rest) => some (tok, rest)
  | fuel + 1, some (tok, rest) =>
    match matchValuePlus fuel rest with
    | some r => some r
    | none => some (tok, rest)

/-- Backtracking over the length of the `[\d|:]+` run: returns
(group 1, group 2, remainder) on success. -/
def tryClassSplit (letters classRun : List Char) (j : Nat) (rest : List Char) :
    Option (List Char × List Char × List Char) :=
  match j with
  | 0 => none
  | jj + 1 =>
    let cls := classRun.take (jj + 1)
    let after := classRun.drop (jj + 1) ++ rest
    match after with
    | [] => tryClassSplit letters classRun jj rest
    | d :: rest2 =>
      if d == '\n' then tryClassSplit letters classRun jj rest
      else
        match matchValuePlus rest2.length rest2 with
        | some (tok, rem) => some (letters ++ cls, tok, rem)
        | none => tryClassSplit letters classRun jj rest

/-- Try the whole pattern anchored at the head of `cs`. -/
def matchStatesAt (cs : List Char) : Option (List Char × List Char × List Char) :=
  let letters := cs.takeWhile isUpperAZ
  if letters.length = 0 ∨ letters.length > 3 then none
  else
    let rest0 := cs.drop letters.length
    let classRun := rest0.takeWhile isDigitPipeColon
    if classRun.length = 0 then none
    else tryClassSplit letters classRun classRun.length (rest0.drop classRun.length)

/-- `re.findall` scan: slide over the input, resuming after each match. -/
def findall_states (fuel : Nat) (cs : List Char) (acc : List (String × String)) :
    List (String × String) :=
  match fuel with
  | 0 => acc.reverse
  | fuel + 1 =>
    match cs with
    | [] => acc.reverse
    | c :: rest =>
      match matchStatesAt (c :: rest) with
      | some (g1, g2, after) => findall_states fuel after ((⟨g1⟩, ⟨g2⟩) :: acc)
      | none => findall_states fuel rest acc

/-! ### `_parse_states` -/

/-- One key/value token of the states line (`elif` chain of
`_parse_states`); the `Bool` is true when `int(m[1].strip())` raised. -/
def parse_states_token (st : SMuFFState) (m : String × String) : SMuFFState × Bool :=
  let key := m.1
  let val := stripWs m.2
  if key = "T:" then ({ st with curTool := val }, false)
  else if key = "S:" then ({ st with selector := val = "on" }, false)
  else if key = "R:" then ({ st with revolver := val = "on" }, false)
  else if key = "F:" then ({ st with feeder := val = "on" }, false)
  else if key = "F2:" then ({ st with feeder2 := val = "on" }, false)
  else if key = "SD:" then ({ st with sdcard := val = "on" }, false)
  else if key = "SC:" then ({ st with cfgChange := val = "on" }, false)
  else if key = "LID:" then ({ st with lid := val = "on" }, false)
  else if key = "I:" then ({ st with isIdle := val = "on" }, false)
  else if key = "TMC:" then
    ({ st with usesTmc := startswith val "+", tmcWarning := strDrop val 1 = "on" }, false)
  else if key = "SPL:" then
    match pyInt val with
    | none => (st, true)
    | some v =>
      let st := { st with spl := v }
      if st.curTool = "-1" then ({ st with loadState := -1 }, false)
      else
        let st := if v = 0 then { st with loadState := 0 } else st
        let st := if v = 1 ∨ v = 16 then { st with loadState := 1 } else st
        let st := if v = 2 ∨ v = 32 then { st with loadState := 2 } else st
        let st := if v = 64 then { st with loadState := 3 } else st
        (st, false)
  else (st, false)

/-- Fold of the token handler over the findall matches; stops at the
first exception, keeping the updates already applied. -/
def parse_states_list (st : SMuFFState) : List (String × String) → SMuFFState × Bool
  | [] => (st, false)
  | m :: ms =>
    let r := parse_states_token st m
    if r.2 then (r.1, true) else parse_states_list r.1 ms

/-- `_async_init`: issue the next initialization query unless still
processing; any other state resets `_initState` to 0. -/
def async_init (ext : Ext) (st : SMuFFState) : SMuFFState × Eff :=
  if st.initState = 1 then
    if st.isProcessing = false then
      let r := send_SMuFF ext st (GETCONFIG CFG_BASIC); (r.1, r.2.1)
    else (st, {})
  else if st.initState = 2 then
    if st.isProcessing = false then
      let r := send_SMuFF ext st (GETCONFIG CFG_MATERIALS); (r.1, r.2.1)
    else (st, {})
  else if st.initState = 3 then
    if st.isProcessing = false then
      let r := send_SMuFF ext st FWINFO; (r.1, r.2.1)
    else (st, {})
  else if st.initState = 4 then
    if st.isProcessing = false then
      let r := send_SMuFF ext st (GETCONFIG CFG_SWAPS); (r.1, r.2.1)
    else (st, {})
  else if st.initState = 5 then
    if st.isProcessing = false then
      let r := send_SMuFF ext st (GETCONFIG CFG_SERVOMAPS); (r.1, r.2.1)
    else (st, {})
  else ({ st with initState := 0 }, {})

/-- `_parse_states(states)`: scan the line, apply every recognized
key, then signal the watchdog event, count the report, and drive the
init sequence while one is outstanding. -/
def parse_states (ext : Ext) (st : SMuFFState) (states : String) : SMuFFState × Eff :=
  if states.data.length = 0 then (st, {})
  else
    let ms := findall_states states.data.length states.data []
    let r := parse_states_list st ms
    if r.2 then (r.1, {})
    else
      let st2 : SMuFFState := { r.1 with serWdEvent := true, stCount := r.1.stCount + 1 }
      if st2.initState = 0 then (st2, {}) else async_init ext st2

/-! ### `_parse_json`

The JSON string itself is decoded by the external `json` library;
`parsed = none` models `json.loads` raising on malformed input.  A
missing dict key raises `KeyError` at the point of access, so a table
rebuild that started (`self._tbl = []` followed by per-tool appends)
keeps the entries appended before the failure. -/

/-- `[ cfg[t]["Material"], cfg[t]["Color"], cfg[t]["PFactor"] ]`. -/
def materials_entry (cfg : JVal) (i : Nat) : Option (List JVal) :=
  match cfg.lookup ("T" ++ toString i) with
  | none => none
  | some t =>
    match t.lookup "Material", t.lookup "Color", t.lookup "PFactor" with
    | some m, some c, some p => some [m, c, p]
    | _, _, _ => none

def swaps_entry (cfg : JVal) (i : Nat) : Option JVal :=
  cfg.lookup ("T" ++ toString i)

def servo_entry (cfg : JVal) (i : Nat) : Option JVal :=
  (cfg.lookup ("T" ++ toString i)).bind (·.lookup "Close")

def feed_entry (cfg : JVal) (i : Nat) : Option JVal :=
  cfg.lookup ("T" ++ toString i)

/-- `for i in range(count): tbl.append(entry(i))` under a `try`: the
first failing entry aborts the loop, keeping the prefix built so far. -/
def table_loop_go {α : Type} (entry : Nat → Option α) (i : Nat) :
    Nat → List α → List α
  | 0, acc => acc.reverse
  | r + 1, acc =>
    match entry i with
    | none => acc.reverse
    | some a => table_loop_go entry (i + 1) r (a :: acc)

def table_loop {α : Type} (entry : Nat → Option α) (count : Nat) : List α :=
  table_loop_go entry 0 count []

/-- The "basic" block: sequential assignments, each `cfg[...]` able to
raise `KeyError` (keeping the assignments already made). -/
def parse_basic (st : SMuFFState) (cfg : JVal) : SMuFFState :=
  match (cfg.lookup "Device").bind JVal.asStr with
  | none => st
  | some d =>
    let st : SMuFFState := { st with device := d }
    match (cfg.lookup "Tools").bind JVal.asInt with
    | none => st
    | some n =>
      let st : SMuFFState := { st with toolCount := n }
      match (cfg.lookup "UseCutter").bind JVal.asBool with
      | none => st
      | some b =>
        let st : SMuFFState := { st with hasCutter := b }
        match (cfg.lookup "UseSplitter").bind JVal.asBool with
        | none => st
        | some sp =>
          let st : SMuFFState := { st with hasSplitter := sp }
          match (cfg.lookup "UseDDE").bind JVal.asBool with
          | none => st
          | some dd => { st with isDDE := dd }

/-- `_parse_json(data, category)`. -/
def parse_json (st : SMuFFState) (parsed : Option JVal) (category : Option String) :
    SMuFFState :=
  match category with
  | none => st
  | some cat =>
    match parsed with
    | none => st
    | some cfg =>
      match cfg with
      | .null => st
      | _ =>
        let st : SMuFFState := if cat = C_BASIC then parse_basic st cfg else st
        let st : SMuFFState :=
          if cat = C_MATERIALS then
            { st with materials := table_loop (materials_entry cfg) st.toolCount.toNat }
          else st
        let st : SMuFFState :=
          if cat = C_SWAPS then
            { st with swaps := table_loop (swaps_entry cfg) st.toolCount.toNat }
          else st
        let st : SMuFFState :=
          if cat = C_SERVOMAPS then
            { st with servoMaps := table_loop (servo_entry cfg) st.toolCount.toNat }
          else st
        let st : SMuFFState :=
          if cat = C_FEEDSTATE then
            { st with feedStates := table_loop (feed_entry cfg) st.toolCount.toNat }
          else st
        st

/-! ### `_parse_serial_data` -/

/-- `data[2:].rstrip("*" "/" "\n").strip(" ").lower()` for the JSON
category marker line. -/
def jsonCatOf (data : String) : String :=
  toLowerStr
    (rstripSet
      (lstripSet
        (rstripSet (strDrop data 2) (fun c => c == '*' || c == '/' || c == '\n'))
        (· == ' '))
      (· == ' '))

/-- The `//action: T<n>` sub-handler (remote tool change request). -/
def action_tool_request (ext : Ext) (st : SMuFFState) (data : String) :
    SMuFFState × Eff :=
  let tool := parse_tool_number (strDrop data 10)
  if ext.isPrinting then
    match ext.canExtrude with
    | some true =>
      let r := send_SMuFF ext st (ACTION_CMD ++ " T: OK")
      (r.1, { r.2.1 with toolChangeCalls := ["tool" ++ toString tool] })
    | some false =>
      let r := send_SMuFF ext st (ACTION_CMD ++ " T: \"Nozzle too cold\"")
      (r.1, r.2.1)
    | none =>
      let r := send_SMuFF ext st (ACTION_CMD ++ " T: \"No nozzle temp. avail.\"")
      (r.1, r.2.1)
  else
    let r := send_SMuFF ext st (ACTION_CMD ++ " T: \"Printer not ready\"")
    (r.1, r.2.1)

/-- `_parse_serial_data(data)`: classify one received line by its
prefix and update the device state accordingly. -/
def parse_serial_data (ext : Ext) (st : SMuFFState) (data : String) :
    SMuFFState × Eff :=
  if data = "" ∨ data = "\n" then (st, {})
  else
    let st : SMuFFState := { st with lastSerialEvent := ext.now, serEvent := false }
    if startswith data R_START then
      let st : SMuFFState := { st with serEvent := true }
      let r := send_SMuFF ext st (PERSTATE ++ OPT_ON)   -- _init_SMuFF
      (r.1, r.2.1)
    else if startswith data PERSTATE then
      ({ st with initState := 1 }, {})
    else if startswith data R_ECHO then
      let rest := strDrop data 6                         -- len(R_ECHO) + 1
      if startswith rest R_DEBUG then (st, {})
      else if startswith rest R_STATES then parse_states ext st (rstripWs data)
      else if startswith rest R_BUSY then
        ({ st with isBusy := true }, { responds := [Msg.busyEcho (rstripWs data)] })
      else (st, {})
    else if startswith data R_ERROR then
      let flush := startswith (strDrop data 7) R_UNKNOWNCMD   -- len(R_ERROR) + 1
      let st : SMuFFState := { st with isError := true }
      let st : SMuFFState :=
        match st.lastCmdSent with
        | some _ => { st with lastCmdSent := none, lastCmdDone := true }
        | none => st
      (st, { responds := [Msg.errorEcho (rstripWs data)], flushedBuffers := flush })
    else if startswith data ACTION_CMD then
      let rest := strDrop data 9                         -- len(ACTION_CMD)
      let r : SMuFFState × Eff :=
        if startswith rest TOOL then action_tool_request ext st data else (st, {})
      let st : SMuFFState := r.1
      let st : SMuFFState :=
        if startswith rest ACTION_WAIT then { st with waitRequested := true } else st
      let st : SMuFFState :=
        if startswith rest ACTION_CONTINUE then
          { st with waitRequested := false, abortRequested := false }
        else st
      let st : SMuFFState :=
        if startswith rest ACTION_ABORT then
          { st with waitRequested := false, abortRequested := true }
        else st
      (st, r.2)
    else if startswith data R_JSONCAT then
      ({ st with jsonCat := some (jsonCatOf data) }, {})
    else if startswith data R_JSON then
      let st : SMuFFState := parse_json st (ext.jsonParse data) st.jsonCat
      ({ st with jsonCat := none, initState := st.initState + 1 }, {})
    else if startswith data R_FWINFO then
      let fw := rstripChar data '\n'
      let st : SMuFFState := { st with fwInfo := fw, lastCmdSent := none }
      let st : SMuFFState :=
        match ext.fwMatch fw with
        | some (v, b, m, o) =>
          { st with fwVersion := some v, fwBoard := some b, fwMode := some m,
                    fwOptions := some o }
        | none => st
      ({ st with initState := st.initState + 1 }, { responds := [Msg.fwInfoMsg fw] })
    else if startswith data R_OK then
      if st.isError then
        let st : SMuFFState := { st with response := some "", lastResponse := [] }
        let st : SMuFFState := { st with lastCmdSent := none, lastCmdDone := true }
        ({ st with serEvent := true }, {})
      else
        let firstResponse : Option String :=
          match st.lastResponse with
          | [] => none
          | r :: _ => some (rstripChar r '\n')
        let st : SMuFFState :=
          if st.lastCmdSent = some ANY then { st with lastCmdDone := true }
          else
            match firstResponse with
            | some fr => if some fr = st.lastCmdSent then { st with lastCmdDone := true } else st
            | none => st
        let joined := String.join st.lastResponse
        let st : SMuFFState :=
          { st with response := some (rstripChar joined '\n'), lastResponse := [] }
        ({ st with lastCmdSent := none, serEvent := true }, {})
    else
      ({ st with lastResponse := st.lastResponse ++ [data] }, {})

/-! ### `cmd_tool_change` (SMUFF_TOOL_CHANGE) -/

/-- `cmd_tool_change(gcmd)`: `paramT`/`paramTool` model
`gcmd.get_int("T", default=-1)` and `gcmd.get_int("TOOL", default=-1)`
(`none` = parameter absent). A registered `_tcTimer` stands for an
already-running tool-change session. -/
def cmd_tool_change (st : SMuFFState) (paramT paramTool : Option Int) :
    SMuFFState × Eff :=
  if st.isConnected = false then (st, { responds := [Msg.notConn] })
  else if st.tcTimer = true then (st, { responds := [Msg.notReady] })
  else
    let st : SMuFFState := { st with activeTool := parse_tool_number st.curTool }
    let st : SMuFFState := { st with pendingTool := paramT.getD (-1) }
    let st : SMuFFState :=
      if st.pendingTool = -1 then { st with pendingTool := paramTool.getD (-1) } else st
    if st.pendingTool = -1 then (st, { responds := [Msg.noParam "TOOL"] })
    else if st.pendingTool > st.toolCount then
      ({ st with pendingTool := -1 },
       { responds := [Msg.noSelTool st.pendingTool st.toolCount] })
    else if st.activeTool = st.pendingTool then
      (st, { responds := [Msg.skipTool st.pendingTool] })
    else
      ({ st with tcState := 1, tcTimer := true }, {})

/-! ### `_tool_change` (the reactor-driven tool-change state machine) -/

/-- One invocation of the `_tool_change` timer callback at reactor time
`eventtime`; the third component is the returned next wake time
(`none` when the timer was unregistered in the terminal branch). -/
def tool_change (ext : Ext) (st : SMuFFState) (eventtime : ℚ) :
    SMuFFState × Eff × Option ℚ :=
  if st.tcState = 1 then
    -- state 1: run PRE_TOOLCHANGE macro
    let st : SMuFFState :=
      { st with tcCount := st.tcCount + 1, tcStartTime := ext.now, preTool := st.curTool }
    if ext.isPrinting then
      let eff : Eff := { macros := ["PRE_TOOLCHANGE T=" ++ toString st.pendingTool] }
      if ext.preMacroError then
        ({ st with tcState := 0 }, eff, some (eventtime + 1/10))
      else
        ({ st with tcState := 2 }, eff, some (eventtime + 1/10))
    else
      ({ st with tcState := 2 }, {}, some (eventtime + 1/10))
  else if st.tcState = 2 then
    -- state 2: send the tool change command to the SMuFF
    let st : SMuFFState := { st with lastCmdDone := false }
    let st : SMuFFState := { st with lastCmdSent := some (TOOL ++ toString st.pendingTool) }
    let r := send_SMuFF ext st
      (TOOL ++ toString st.pendingTool ++ (if st.autoLoad then AUTOLOAD else ""))
    ({ r.1 with tcState := 3 }, r.2.1, some (eventtime + 5))
  else if st.tcState = 3 then
    -- state 3: wait for the response from the SMuFF
    if st.lastCmdDone then
      if st.isError then ({ st with tcState := 6 }, {}, some (eventtime + 1/10))
      else ({ st with tcState := 4 }, {}, some (eventtime + 1/10))
    else
      let watchdog : ℚ := ((ext.now - st.tcStartTime : Int) : ℚ) / 1000
      if watchdog > ext.tcTimeout then
        ({ st with tcState := 6 }, {}, some (eventtime + 1))
      else (st, {}, some (eventtime + 1))
  else if st.tcState = 4 then
    -- state 4: query the feed state from the SMuFF
    let st : SMuFFState := { st with lastCmdSent := some (GETCONFIG CFG_FEEDSTATE) }
    let r := send_SMuFF ext st (GETCONFIG CFG_FEEDSTATE)
    ({ r.1 with tcState := 5 }, r.2.1, some (eventtime + 1/5))
  else if st.tcState = 5 then
    -- state 5: run POST_TOOLCHANGE macro (macro failures logged, not propagated)
    if ext.isPaused then
      let prevTool := parse_tool_number st.preTool
      let eff : Eff :=
        { macros := ["POST_TOOLCHANGE P=" ++ toString prevTool ++
                     " T=" ++ toString st.activeTool] }
      ({ st with tcState := 6 }, eff, some (eventtime + 1/10))
    else ({ st with tcState := 6 }, {}, some (eventtime + 1/10))
  else if st.tcState = 6 then
    -- state 6: calculate duration and end
    let duration : ℚ := ((ext.now - st.tcStartTime : Int) : ℚ) / 1000
    ({ st with durationTotal := st.durationTotal + duration, tcState := 0 }, {},
     some (eventtime + 1/10))
  else
    -- any other state: discard the timer
    ({ st with tcTimer := false }, {}, none)

/-! ### `_wait_for_ok`, `cmd_load`, `cmd_unload` -/

/-- The `_wait_for_ok` timer callback. -/
def wait_for_ok (st : SMuFFState) (eventtime : ℚ) : SMuFFState × Option ℚ :=
  if st.lastCmdDone then ({ st with okTimer := false }, none)
  else (st, some (eventtime + 2))

/-- `cmd_load(gcmd)` (SMUFF_LOAD). -/
def cmd_load (ext : Ext) (st : SMuFFState) : SMuFFState × Eff :=
  if st.isConnected = false then (st, { responds := [Msg.notConn] })
  else if st.okTimer = true then (st, { responds := [Msg.notReady] })
  else
    let activeTool := parse_tool_number st.curTool
    if activeTool ≠ -1 then
      let st : SMuFFState := { st with lastCmdSent := some LOAD }
      let r := send_SMuFF ext st LOAD
      ({ r.1 with lastCmdDone := false, okTimer := true }, r.2.1)
    else (st, {})

/-- `cmd_unload(gcmd)` (SMUFF_UNLOAD). -/
def cmd_unload (ext : Ext) (st : SMuFFState) : SMuFFState × Eff :=
  if st.isConnected = false then (st, { responds := [Msg.notConn] })
  else if st.okTimer = true then (st, { responds := [Msg.notReady] })
  else
    let activeTool := parse_tool_number st.curTool
    if activeTool ≠ -1 then
      let st : SMuFFState := { st with lastCmdSent := some UNLOAD }
      let r := send_SMuFF ext st UNLOAD
      ({ r.1 with lastCmdDone := false, okTimer := true }, r.2.1)
    else (st, {})

/-! ### `_send_SMuFF_and_wait`

The blocking wait loop interleaves with the reader thread through the
`_serEvent` condition.  Each pass through the loop either sees the
event set (`signaled`, with the `_response`/`_isError` values the
reader left behind) or times out (`timedOut`, with the `_isBusy` flag
at that moment); the loop is driven by the sequence of these outcomes. -/

inductive WaitOutcome where
  | signaled (resp : Option String) (isErr : Bool)
  | timedOut (busy : Bool)
deriving Repr, DecidableEq

/-- The `while not done` loop of `_send_SMuFF_and_wait`:
`result` is the running `result` variable; the return value is
`some r` when the loop ends with `result = r`, and `none` when the
supplied outcomes are exhausted with the wait still pending. -/
def wait_loop (result : Option String) : List WaitOutcome → Option (Option String)
  | [] => none
  | .signaled resp isErr :: rest =>
    match resp with
    | none => some none
    | some r =>
      if isErr then some (some r)
      else if startswith r R_ECHO then wait_loop (some r) rest
      else some (some r)
  | .timedOut busy :: rest =>
    if busy then wait_loop result rest else some result

/-- `_send_SMuFF_and_wait(data)` against a given outcome trace:
timeout selection, watchdog widening, send, wait loop, restore. -/
def send_SMuFF_and_wait (ext : Ext) (st : SMuFFState) (data : String)
    (outcomes : List WaitOutcome) : SMuFFState × Eff × Option (Option String) :=
  let timeout := if startswith data TOOL then ext.tcTimeout else ext.cmdTimeout
  let st : SMuFFState := { st with wdTimeout := timeout }
  let r := send_SMuFF ext st data
  if r.2.2 = false then (r.1, r.2.1, some none)
  else
    let st : SMuFFState := { r.1 with isProcessing := true }
    match wait_loop none outcomes with
    | none => (st, r.2.1, none)
    | some result =>
      let st : SMuFFState := { st with isProcessing := false, wdTimeout := WD_TIMEOUT }
      (st, r.2.1, some result)

/-! ### Step lemmas for the individual branches -/

theorem cmd_tool_change_go (st : SMuFFState) (t : Int) (p2 : Option Int)
    (hconn : st.isConnected = true) (hfree : st.tcTimer = false)
    (ht0 : 0 ≤ t) (ht1 : t ≤ st.toolCount)
    (hcur : parse_tool_number st.curTool ≠ t) :
    cmd_tool_change st (some t) p2 =
      ({ st with activeTool := parse_tool_number st.curTool, pendingTool := t,
                 tcState := 1, tcTimer := true }, {}) := by
  have h1 : ¬ (t = -1) := by omega
  have h2 : ¬ (t > st.toolCount) := by omega
  simp [cmd_tool_change, hconn, hfree, h1, h2, hcur]

theorem tool_change_s1_idle (ext : Ext) (st : SMuFFState) (e : ℚ)
    (h1 : st.tcState = 1) (h2 : ext.isPrinting = false) :
    tool_change ext st e =
      ({ st with tcCount := st.tcCount + 1, tcStartTime := ext.now,
                 preTool := st.curTool, tcState := 2 }, {}, some (e + 1/10)) := by
  simp [tool_change, h1, h2]

theorem tool_change_s1_macro_error (ext : Ext) (st : SMuFFState) (e : ℚ)
    (h1 : st.tcState = 1) (h2 : ext.isPrinting = true) (h3 : ext.preMacroError = true) :
    tool_change ext st e =
      ({ st with tcCount := st.tcCount + 1, tcStartTime := ext.now,
                 preTool := st.curTool, tcState := 0 },
       { macros := ["PRE_TOOLCHANGE T=" ++ toString st.pendingTool] },
       some (e + 1/10)) := by
  simp [tool_change, h1, h2, h3]

theorem send_SMuFF_fst_some (ext : Ext) (st : SMuFFState) (data c : String)
    (h : st.lastCmdSent = some c) :
    (send_SMuFF ext st data).1 = { st with isBusy := false, isError := false } := by
  unfold send_SMuFF
  rw [h]
  cases hso : ext.serialOpen <;> cases hsf : ext.sendFails <;> simp

theorem tool_change_s2_fst (ext : Ext) (st : SMuFFState) (e : ℚ)
    (h1 : st.tcState = 2) :
    (tool_change ext st e).1.tcState = 3 ∧
    (tool_change ext st e).1.tcCount = st.tcCount ∧
    (tool_change ext st e).1.lastCmdDone = false ∧
    (tool_change ext st e).1.isError = false ∧
    (tool_change ext st e).2.2 = some (e + 5) := by
  unfold tool_change send_SMuFF
  rw [h1]
  cases hso : ext.serialOpen <;> cases hsf : ext.sendFails <;> simp [hso, hsf]

theorem tool_change_s3_done_ok (ext : Ext) (st : SMuFFState) (e : ℚ)
    (h1 : st.tcState = 3) (h2 : st.lastCmdDone = true) (h3 : st.isError = false) :
    tool_change ext st e = ({ st with tcState := 4 }, {}, some (e + 1/10)) := by
  simp [tool_change, h1, h2, h3]

theorem tool_change_s4_fst (ext : Ext) (st : SMuFFState) (e : ℚ)
    (h1 : st.tcState = 4) :
    (tool_change ext st e).1.tcState = 5 ∧
    (tool_change ext st e).1.tcCount = st.tcCount ∧
    (tool_change ext st e).1.tcStartTime = st.tcStartTime ∧
    (tool_change ext st e).1.durationTotal = st.durationTotal ∧
    (tool_change ext st e).2.2 = some (e + 1/5) := by
  unfold tool_change send_SMuFF
  rw [h1]
  cases hso : ext.serialOpen <;> cases hsf : ext.sendFails <;> simp [hso, hsf]

theorem tool_change_s5_not_paused (ext : Ext) (st : SMuFFState) (e : ℚ)
    (h1 : st.tcState = 5) (h2 : ext.isPaused = false) :
    tool_change ext st e = ({ st with tcState := 6 }, {}, some (e + 1/10)) := by
  simp [tool_change, h1, h2]

theorem tool_change_s6 (ext : Ext) (st : SMuFFState) (e : ℚ)
    (h1 : st.tcState = 6) :
    tool_change ext st e =
      ({ st with durationTotal :=
                   st.durationTotal + ((ext.now - st.tcStartTime : Int) : ℚ) / 1000,
                 tcState := 0 }, {}, some (e + 1/10)) := by
  simp [tool_change, h1]

theorem tool_change_s0 (ext : Ext) (st : SMuFFState) (e : ℚ)
    (h1 : st.tcState = 0) :
    tool_change ext st e = ({ st with tcTimer := false }, {}, none) := by
  simp [tool_change, h1]

/-! ## The verified claims -/

/-- C2: requesting the tool that is already active performs no I/O (no
serial write), does not start the tool-change state machine (the timer
field and `_tcState` keep their values), reports the tool as already
loaded, and — by the full frame equality — leaves `_tcCount` and
`_durationTotal` (ToolChangeStats) unchanged; only the cached
`_activeTool` and the requested `_pendingTool` are (re)assigned to `t`. -/
theorem skip_tool_change_noop (st : SMuFFState) (t : Int) (p2 : Option Int)
    (hconn : st.isConnected = true) (hfree : st.tcTimer = false)
    (ht0 : 0 ≤ t) (ht1 : t ≤ st.toolCount)
    (hcur : parse_tool_number st.curTool = t) :
    cmd_tool_change st (some t) p2 =
      ({ st with activeTool := t, pendingTool := t },
       { responds := [Msg.skipTool t] }) := by
  have h1 : ¬ (t = -1) := by omega
  have h2 : ¬ (t > st.toolCount) := by omega
  simp [cmd_tool_change, hconn, hfree, h1, h2, hcur]

def c2_st : SMuFFState :=
  { reset_state with isConnected := true, toolCount := 4, curTool := "T2" }

/-- C2 witness: a concrete run of the skip rule at tool 2. -/
theorem skip_tool_change_noop_witness :
    parse_tool_number c2_st.curTool = 2 ∧
    cmd_tool_change c2_st (some 2) none =
      ({ c2_st with activeTool := 2, pendingTool := 2 },
       { responds := [Msg.skipTool 2] }) :=
  ⟨by decide,
   skip_tool_change_noop c2_st 2 none rfl rfl (by decide) (by decide) (by decide)⟩

/-- C3 (amended): a requested tool greater than `_toolCount` is rejected
before any serial write and `_pendingTool` is reset to -1 — but the
cached `_activeTool` is also reassigned (recomputed from the current
tool), so `_pendingTool` is not the only field that can change. -/
theorem reject_overrange (st : SMuFFState) (t : Int) (p2 : Option Int)
    (hconn : st.isConnected = true) (hfree : st.tcTimer = false)
    (htc : 0 ≤ st.toolCount) (ht : st.toolCount < t) :
    cmd_tool_change st (some t) p2 =
      ({ st with activeTool := parse_tool_number st.curTool, pendingTool := -1 },
       { responds := [Msg.noSelTool t st.toolCount] }) := by
  have h1 : ¬ (t = -1) := by omega
  simp [cmd_tool_change, hconn, hfree, h1, ht]

def c3_st : SMuFFState :=
  { reset_state with isConnected := true, toolCount := 2, curTool := "T2",
                     activeTool := 5 }

/-- C3 counterexample: requesting tool 3 with `toolCount = 2` is rejected
with `_pendingTool = -1` and no serial write, but `_activeTool` changes
from 5 to 2 — state other than `pendingTool` does change. -/
theorem reject_overrange_counterexample :
    (cmd_tool_change c3_st (some 3) none).1.activeTool = 2 ∧
    c3_st.activeTool = 5 ∧
    (cmd_tool_change c3_st (some 3) none).1.pendingTool = -1 ∧
    (cmd_tool_change c3_st (some 3) none).2.sends = [] := by decide

/-- C3 witness for the amended theorem. -/
theorem reject_overrange_witness :
    cmd_tool_change c3_st (some 3) none =
      ({ c3_st with activeTool := parse_tool_number c3_st.curTool, pendingTool := -1 },
       { responds := [Msg.noSelTool 3 2] }) :=
  reject_overrange c3_st 3 none rfl rfl (by decide) (by decide)

/-- C9: while a tool-change timer is registered, a new SMUFF_TOOL_CHANGE
is rejected with the busy notification, no serial write happens, and
the whole state (pendingTool, stage, statistics included) is unchanged. -/
theorem session_busy_reject (st : SMuFFState) (p1 p2 : Option Int)
    (hconn : st.isConnected = true) (hbusy : st.tcTimer = true) :
    cmd_tool_change st p1 p2 = (st, { responds := [Msg.notReady] }) := by
  simp [cmd_tool_change, hconn, hbusy]

def c9_st : SMuFFState := { reset_state with isConnected := true, tcTimer := true }

/-- C9 witness: concrete busy rejection. -/
theorem session_busy_reject_witness :
    cmd_tool_change c9_st (some 1) none = (c9_st, { responds := [Msg.notReady] }) :=
  session_busy_reject c9_st (some 1) none rfl rfl

/-- C10: SMUFF_LOAD / SMUFF_UNLOAD send nothing when no tool is selected
(`parse_tool_number` gives -1; state fully unchanged, no notification),
send nothing but notify busy when a previous wait timer is still
registered, and create the command plus its completion timer exactly
when a tool is selected and no wait is pending. -/
theorem load_unload_gating (ext : Ext) (sa sb sc : SMuFFState)
    (ha : parse_tool_number sa.curTool = -1)
    (hc : parse_tool_number sc.curTool ≠ -1)
    (hso : ext.serialOpen = true) (hsf : ext.sendFails = false) :
    (cmd_load ext { sa with isConnected := true, okTimer := false } =
       ({ sa with isConnected := true, okTimer := false }, {}) ∧
     cmd_unload ext { sa with isConnected := true, okTimer := false } =
       ({ sa with isConnected := true, okTimer := false }, {})) ∧
    (cmd_load ext { sb with isConnected := true, okTimer := true } =
       ({ sb with isConnected := true, okTimer := true },
        { responds := [Msg.notReady] }) ∧
     cmd_unload ext { sb with isConnected := true, okTimer := true } =
       ({ sb with isConnected := true, okTimer := true },
        { responds := [Msg.notReady] })) ∧
    (cmd_load ext { sc with isConnected := true, okTimer := false } =
       ({ sc with isConnected := true, isBusy := false, isError := false,
                  lastCmdSent := some LOAD, lastCmdDone := false, okTimer := true },
        { sends := [LOAD ++ "\n"] }) ∧
     cmd_unload ext { sc with isConnected := true, okTimer := false } =
       ({ sc with isConnected := true, isBusy := false, isError := false,
                  lastCmdSent := some UNLOAD, lastCmdDone := false, okTimer := true },
        { sends := [UNLOAD ++ "\n"] })) := by
  refine ⟨⟨?_, ?_⟩, ⟨?_, ?_⟩, ⟨?_, ?_⟩⟩ <;>
    simp [cmd_load, cmd_unload, send_SMuFF, ha, hc, hso, hsf]

def c10_sa : SMuFFState := reset_state

def c10_sc : SMuFFState := { reset_state with curTool := "T3" }

/-- C10 witness: no-tool-selected case at the reset state. -/
theorem load_unload_gating_witness :
    parse_tool_number c10_sa.curTool = -1 ∧
    (cmd_load ext0 { c10_sa with isConnected := true, okTimer := false } =
       ({ c10_sa with isConnected := true, okTimer := false }, {}) ∧
     cmd_unload ext0 { c10_sa with isConnected := true, okTimer := false } =
       ({ c10_sa with isConnected := true, okTimer := false }, {})) :=
  ⟨by decide,
   (load_unload_gating ext0 c10_sa c10_sa c10_sc (by decide) (by decide) rfl rfl).1⟩

/-- C5 (amended): a `busy` line never terminates the wait at all (it does
not signal the response event, it only sets the busy flag); a timeout
expiry while the busy flag is set resumes waiting — on every such
expiry, not just the first — and a timeout expiry ends the wait exactly
when the busy flag is clear. -/
theorem busy_wait_semantics (ext : Ext) (st : SMuFFState)
    (result : Option String) (rest : List WaitOutcome) :
    ((parse_serial_data ext st "echo: busy\n").1.serEvent = false ∧
     (parse_serial_data ext st "echo: busy\n").1.isBusy = true) ∧
    wait_loop result (WaitOutcome.timedOut true :: rest) = wait_loop result rest ∧
    wait_loop result (WaitOutcome.timedOut false :: rest) = some result := by
  exact ⟨⟨rfl, rfl⟩, rfl, rfl⟩

/-- C5 counterexample: after two timeout expiries with the busy flag set
the wait is still pending (not ended as the claim requires), and a later
response still resolves it. -/
theorem busy_wait_once_counterexample :
    wait_loop none [WaitOutcome.timedOut true, WaitOutcome.timedOut true] = none ∧
    wait_loop none [WaitOutcome.timedOut true, WaitOutcome.timedOut true,
      WaitOutcome.signaled (some "xyz") false] = some (some "xyz") := by decide

/-- C6: an `error:` line with a command outstanding sets the error flag
and resolves the command immediately (`_lastCmdDone`, clearing
`_lastCmdSent`) without signalling the waiter; a subsequent `ok` line
resolves with the empty payload and leaves the failed outcome (done
flag, error flag) unchanged while finally signalling the waiter. -/
theorem error_line_short_circuit (ext : Ext) (st : SMuFFState) (c : String) :
    ((parse_serial_data ext { st with lastCmdSent := some c }
        "error: dummy\n").1.isError = true ∧
     (parse_serial_data ext { st with lastCmdSent := some c }
        "error: dummy\n").1.lastCmdDone = true ∧
     (parse_serial_data ext { st with lastCmdSent := some c }
        "error: dummy\n").1.lastCmdSent = none ∧
     (parse_serial_data ext { st with lastCmdSent := some c }
        "error: dummy\n").1.serEvent = false) ∧
    ((parse_serial_data ext (parse_serial_data ext { st with lastCmdSent := some c }
        "error: dummy\n").1 "ok\n").1.response = some "" ∧
     (parse_serial_data ext (parse_serial_data ext { st with lastCmdSent := some c }
        "error: dummy\n").1 "ok\n").1.lastCmdDone = true ∧
     (parse_serial_data ext (parse_serial_data ext { st with lastCmdSent := some c }
        "error: dummy\n").1 "ok\n").1.isError = true ∧
     (parse_serial_data ext (parse_serial_data ext { st with lastCmdSent := some c }
        "error: dummy\n").1 "ok\n").1.lastCmdSent = none ∧
     (parse_serial_data ext (parse_serial_data ext { st with lastCmdSent := some c }
        "error: dummy\n").1 "ok\n").1.serEvent = true) := by
  exact ⟨⟨rfl, rfl, rfl, rfl⟩, ⟨rfl, rfl, rfl, rfl, rfl⟩⟩

def statesLine : String :=
  "echo: states: T: T3  S: off  R: off  F: on  F2: off  SD: off  SC: off  LID: on  I: off  SPL: 0"

/-- C7: parsing the concrete states line sets the current tool to T3
(tool number 3), selector off, feeder on, lid closed, load state 0
(NotLoaded, since a tool is selected and SPL is 0), and counts as
exactly one liveness signal: the watchdog event is signalled and the
states counter goes up by exactly 1. -/
theorem states_line_parse (ext : Ext) (st : SMuFFState) :
    (parse_serial_data ext { st with initState := 0 }
      (statesLine ++ "\n")).1.curTool = "T3" ∧
    parse_tool_number (parse_serial_data ext { st with initState := 0 }
      (statesLine ++ "\n")).1.curTool = 3 ∧
    (parse_serial_data ext { st with initState := 0 }
      (statesLine ++ "\n")).1.selector = false ∧
    (parse_serial_data ext { st with initState := 0 }
      (statesLine ++ "\n")).1.feeder = true ∧
    (parse_serial_data ext { st with initState := 0 }
      (statesLine ++ "\n")).1.lid = true ∧
    (parse_serial_data ext { st with initState := 0 }
      (statesLine ++ "\n")).1.loadState = 0 ∧
    (parse_serial_data ext { st with initState := 0 }
      (statesLine ++ "\n")).1.serWdEvent = true ∧
    (parse_serial_data ext { st with initState := 0 }
      (statesLine ++ "\n")).1.stCount = st.stCount + 1 := by
  have h : parse_serial_data ext { st with initState := 0 } (statesLine ++ "\n") =
      ({ st with initState := 0, lastSerialEvent := ext.now, serEvent := false,
                 curTool := "T3", selector := false, revolver := false,
                 feeder := true, feeder2 := false, sdcard := false,
                 cfgChange := false, lid := true, isIdle := false, spl := 0,
                 loadState := 0, serWdEvent := true,
                 stCount := st.stCount + 1 }, {}) := rfl
  rw [h]
  exact ⟨rfl, rfl, rfl, rfl, rfl, rfl, rfl, rfl⟩

def c8_cfg : JVal :=
  .obj [("T0", .obj [("Material", .str "PLA"), ("Color", .str "Red"),
                     ("PFactor", .num 110)])]

def c8_st : SMuFFState := { reset_state with toolCount := 2 }

/-- C8 counterexample: with `toolCount = 2` and a previously empty
materials table, a materials payload missing the "T1" key does not
leave the table at its previous value — it is rebuilt to the one-entry
prefix that parsed before the KeyError, i.e. a partial overwrite. -/
theorem json_partial_overwrite_counterexample :
    (parse_json c8_st (some c8_cfg) (some C_MATERIALS)).materials.length = 1 ∧
    c8_st.materials.length = 0 ∧
    c8_st.toolCount = 2 := by decide

/-- C8 (amended): malformed JSON (`json.loads` raising) and a `null`
payload leave every table — and the whole state — unchanged; but a
missing per-tool key only aborts the rebuild loop, leaving the table
holding the new entries built before the failure (here the single T0
entry out of toolCount = 2), so tables are not always replaced
wholesale-or-not-at-all. -/
theorem json_failure_tables (st : SMuFFState) (cat : Option String) :
    parse_json st none cat = st ∧
    parse_json st (some JVal.null) cat = st ∧
    (parse_json { st with toolCount := 2, materials := [] } (some c8_cfg)
       (some C_MATERIALS)).materials =
      [[JVal.str "PLA", JVal.str "Red", JVal.num 110]] := by
  refine ⟨?_, ?_, rfl⟩ <;> cases cat <;> rfl

/-- C1: starting a tool change for a valid tool `t` (`0 ≤ t <
toolCount`) different from the active tool registers the timer in stage
1, and the state machine then runs stage 1 (incrementing `_tcCount` by
exactly 1), stage 2 and stage 3; given the premise that a terminal
response has arrived without error when stage 3 polls (the state `u`
with `lastCmdDone` set and the error flag clear), it then runs stages 4,
5 and 6 and the terminal discard invocation once each, accumulating the
elapsed duration in stage 6 and never touching the counter again, so
`totalChanges` goes up by exactly 1 over the whole sequence. -/
theorem tool_change_stages_once
    (st u : SMuFFState) (ext : Ext) (t : Int)
    (hconn : st.isConnected = true) (hfree : st.tcTimer = false)
    (ht0 : 0 ≤ t) (ht1 : t < st.toolCount)
    (hcur : parse_tool_number st.curTool ≠ t)
    (hpr : ext.isPrinting = false) (hpa : ext.isPaused = false)
    (hu1 : u.tcState = 3) (hu2 : u.lastCmdDone = true) (hu3 : u.isError = false)
    (s0 s1 s2 v1 v2 v3 v4 : SMuFFState)
    (hs0 : s0 = (cmd_tool_change st (some t) none).1)
    (hs1 : s1 = (tool_change ext s0 0).1)
    (hs2 : s2 = (tool_change ext s1 0).1)
    (hv1 : v1 = (tool_change ext u 0).1)
    (hv2 : v2 = (tool_change ext v1 0).1)
    (hv3 : v3 = (tool_change ext v2 0).1)
    (hv4 : v4 = (tool_change ext v3 0).1) :
    (s0.tcState = 1 ∧ s0.tcTimer = true ∧ s0.tcCount = st.tcCount) ∧
    (s1.tcState = 2 ∧ s1.tcCount = st.tcCount + 1) ∧
    (s2.tcState = 3 ∧ s2.tcCount = st.tcCount + 1) ∧
    (v1.tcState = 4 ∧ v1.tcCount = u.tcCount) ∧
    (v2.tcState = 5 ∧ v2.tcCount = u.tcCount) ∧
    (v3.tcState = 6 ∧ v3.tcCount = u.tcCount) ∧
    (v4.tcState = 0 ∧ v4.tcCount = u.tcCount ∧
     v4.durationTotal =
       u.durationTotal + ((ext.now - u.tcStartTime : Int) : ℚ) / 1000) ∧
    ((tool_change ext v4 0).1.tcTimer = false ∧
     (tool_change ext v4 0).2.2 = none ∧
     (tool_change ext v4 0).1.tcCount = u.tcCount) := by
  have e0 := cmd_tool_change_go st t none hconn hfree ht0 (le_of_lt ht1) hcur
  have hs0e : s0 = { st with activeTool := parse_tool_number st.curTool,
                             pendingTool := t, tcState := 1, tcTimer := true } := by
    rw [hs0, e0]
  have f0a : s0.tcState = 1 := by simp [hs0e]
  have f0b : s0.tcTimer = true := by simp [hs0e]
  have f0c : s0.tcCount = st.tcCount := by simp [hs0e]
  have e1 := tool_change_s1_idle ext s0 0 f0a hpr
  have hs1e : s1 = { s0 with tcCount := s0.tcCount + 1, tcStartTime := ext.now,
                             preTool := s0.curTool, tcState := 2 } := by
    rw [hs1, e1]
  have f1a : s1.tcState = 2 := by simp [hs1e]
  have f1b : s1.tcCount = st.tcCount + 1 := by simp [hs1e, f0c]
  have e2 := tool_change_s2_fst ext s1 0 f1a
  have f2a : s2.tcState = 3 := by rw [hs2]; exact e2.1
  have f2b : s2.tcCount = st.tcCount + 1 := by rw [hs2, e2.2.1]; exact f1b
  have e3 := tool_change_s3_done_ok ext u 0 hu1 hu2 hu3
  have hv1e : v1 = { u with tcState := 4 } := by rw [hv1, e3]
  have f3a : v1.tcState = 4 := by simp [hv1e]
  have f3b : v1.tcCount = u.tcCount := by simp [hv1e]
  have e4 := tool_change_s4_fst ext v1 0 f3a
  have f4a : v2.tcState = 5 := by rw [hv2]; exact e4.1
  have f4b : v2.tcCount = u.tcCount := by rw [hv2, e4.2.1]; exact f3b
  have f4c : v2.tcStartTime = u.tcStartTime := by
    rw [hv2, e4.2.2.1]; simp [hv1e]
  have f4d : v2.durationTotal = u.durationTotal := by
    rw [hv2, e4.2.2.2.1]; simp [hv1e]
  have e5 := tool_change_s5_not_paused ext v2 0 f4a hpa
  have hv3e : v3 = { v2 with tcState := 6 } := by rw [hv3, e5]
  have f5a : v3.tcState = 6 := by simp [hv3e]
  have f5b : v3.tcCount = u.tcCount := by simp [hv3e, f4b]
  have f5c : v3.tcStartTime = u.tcStartTime := by simp [hv3e, f4c]
  have f5d : v3.durationTotal = u.durationTotal := by simp [hv3e, f4d]
  have e6 := tool_change_s6 ext v3 0 f5a
  have hv4e : v4 =
      { v3 with
        durationTotal := v3.durationTotal + ((ext.now - v3.tcStartTime : Int) : ℚ) / 1000
        tcState := 0 } := by
    rw [hv4, e6]
  have f6a : v4.tcState = 0 := by simp [hv4e]
  have f6b : v4.tcCount = u.tcCount := by simp [hv4e, f5b]
  have f6c : v4.durationTotal =
      u.durationTotal + ((ext.now - u.tcStartTime : Int) : ℚ) / 1000 := by
    simp [hv4e, f5c, f5d]
  have e7 := tool_change_s0 ext v4 0 f6a
  refine ⟨⟨f0a, f0b, f0c⟩, ⟨f1a, f1b⟩, ⟨f2a, f2b⟩, ⟨f3a, f3b⟩, ⟨f4a, f4b⟩,
          ⟨f5a, f5b⟩, ⟨f6a, f6b, f6c⟩, ?_, ?_, ?_⟩
  · simp [e7]
  · simp [e7]
  · simp [e7, f6b]

def c1_st : SMuFFState := { reset_state with isConnected := true, toolCount := 4 }

def c1_s0 : SMuFFState := (cmd_tool_change c1_st (some 1) none).1

def c1_s1 : SMuFFState := (tool_change ext0 c1_s0 0).1

def c1_s2 : SMuFFState := (tool_change ext0 c1_s1 0).1

/-- The state after the device echoed the tool command and sent `ok`
while stage 3 was pending: the premise of C1 realized by the real
response demultiplexer. -/
def c1_u : SMuFFState :=
  (parse_serial_data ext0 (parse_serial_data ext0 c1_s2 "T1\n").1 "ok\n").1

def c1_v1 : SMuFFState := (tool_change ext0 c1_u 0).1

def c1_v2 : SMuFFState := (tool_change ext0 c1_v1 0).1

def c1_v3 : SMuFFState := (tool_change ext0 c1_v2 0).1

def c1_v4 : SMuFFState := (tool_change ext0 c1_v3 0).1

/-- C1 witness: the full concrete run at tool 1, with the stage-3
premise discharged by actually feeding the device echo and the `ok`
terminator through `parse_serial_data`. -/
theorem tool_change_stages_once_witness :
    (c1_u.tcState = 3 ∧ c1_u.lastCmdDone = true ∧ c1_u.isError = false) ∧
    ((c1_s0.tcState = 1 ∧ c1_s0.tcTimer = true ∧ c1_s0.tcCount = c1_st.tcCount) ∧
     (c1_s1.tcState = 2 ∧ c1_s1.tcCount = c1_st.tcCount + 1) ∧
     (c1_s2.tcState = 3 ∧ c1_s2.tcCount = c1_st.tcCount + 1) ∧
     (c1_v1.tcState = 4 ∧ c1_v1.tcCount = c1_u.tcCount) ∧
     (c1_v2.tcState = 5 ∧ c1_v2.tcCount = c1_u.tcCount) ∧
     (c1_v3.tcState = 6 ∧ c1_v3.tcCount = c1_u.tcCount) ∧
     (c1_v4.tcState = 0 ∧ c1_v4.tcCount = c1_u.tcCount ∧
      c1_v4.durationTotal =
        c1_u.durationTotal + ((ext0.now - c1_u.tcStartTime : Int) : ℚ) / 1000) ∧
     ((tool_change ext0 c1_v4 0).1.tcTimer = false ∧
      (tool_change ext0 c1_v4 0).2.2 = none ∧
      (tool_change ext0 c1_v4 0).1.tcCount = c1_u.tcCount)) :=
  ⟨⟨by decide, by decide, by decide⟩,
   tool_change_stages_once c1_st c1_u ext0 1 rfl rfl (by decide) (by decide)
     (by decide) rfl rfl (by decide) (by decide) (by decide)
     c1_s0 c1_s1 c1_s2 c1_v1 c1_v2 c1_v3 c1_v4 rfl rfl rfl rfl rfl rfl rfl⟩

def c4_st : SMuFFState :=
  { reset_state with isConnected := true, tcState := 1, tcTimer := true,
                     pendingTool := 2 }

def c4_ext : Ext := { isPrinting := true, preMacroError := true, now := 5000 }

/-- C4 counterexample: in stage 1 with an active print and a failing
PRE_TOOLCHANGE macro, the machine moves to stage 0 — not to stage 6 —
and the following invocation discards the timer without accumulating
any duration into `_durationTotal`. -/
theorem pre_macro_error_counterexample :
    (tool_change c4_ext c4_st 0).1.tcState = 0 ∧
    (tool_change c4_ext c4_st 0).1.tcState ≠ 6 ∧
    (tool_change c4_ext (tool_change c4_ext c4_st 0).1 0).1.durationTotal =
      c4_st.durationTotal ∧
    (tool_change c4_ext (tool_change c4_ext c4_st 0).1 0).1.tcTimer = false ∧
    (tool_change c4_ext (tool_change c4_ext c4_st 0).1 0).2.2 = none := by
  decide

/-- C4 (amended): when the host reports an active print and the
pre-toolchange macro raises, stage 1 aborts to stage 0 (the terminal
discard state), so the session terminates without ever reaching stage 6
and without accumulating the elapsed duration into ToolChangeStats —
although `totalChanges` was already incremented. -/
theorem pre_macro_error_aborts (ext : Ext) (st : SMuFFState) (e : ℚ)
    (h1 : st.tcState = 1) (hpr : ext.isPrinting = true)
    (hme : ext.preMacroError = true) :
    ((tool_change ext st e).1.tcState = 0 ∧
     (tool_change ext st e).1.tcCount = st.tcCount + 1 ∧
     (tool_change ext st e).1.durationTotal = st.durationTotal ∧
     (tool_change ext st e).2.1.macros =
       ["PRE_TOOLCHANGE T=" ++ toString st.pendingTool]) ∧
    ((tool_change ext (tool_change ext st e).1 e).1.tcTimer = false ∧
     (tool_change ext (tool_change ext st e).1 e).1.durationTotal =
       st.durationTotal ∧
     (tool_change ext (tool_change ext st e).1 e).2.2 = none) := by
  have e1 := tool_change_s1_macro_error ext st e h1 hpr hme
  have f0 : (tool_change ext st e).1.tcState = 0 := by simp [e1]
  have e2 := tool_change_s0 ext (tool_change ext st e).1 e f0
  refine ⟨⟨f0, ?_, ?_, ?_⟩, ?_, ?_, ?_⟩
  · simp [e1]
  · simp [e1]
  · simp [e1]
  · rw [e2]
  · rw [e2]; simp [e1]
  · rw [e2]

/-- C4 witness for the amended theorem, at the concrete counterexample
input. -/
theorem pre_macro_error_aborts_witness :
    ((tool_change c4_ext c4_st 0).1.tcState = 0 ∧
     (tool_change c4_ext c4_st 0).1.tcCount = c4_st.tcCount + 1 ∧
     (tool_change c4_ext c4_st 0).1.durationTotal = c4_st.durationTotal ∧
     (tool_change c4_ext c4_st 0).2.1.macros =
       ["PRE_TOOLCHANGE T=" ++ toString c4_st.pendingTool]) ∧
    ((tool_change c4_ext (tool_change c4_ext c4_st 0).1 0).1.tcTimer = false ∧
     (tool_change c4_ext (tool_change c4_ext c4_st 0).1 0).1.durationTotal =
       c4_st.durationTotal ∧
     (tool_change c4_ext (tool_change c4_ext c4_st 0).1 0).2.2 = none) :=
  pre_macro_error_aborts c4_ext c4_st 0 rfl rfl rfl

end SMuFFMod
